import Mathlib

/-!
Chat server (`main.go`): shallow embedding and verification.

The server keeps three package-level maps (`chatRooms`, `users`, `chatHistory`) behind one
`sync.Mutex`.  Every operation of the server is translated below as a function on an explicit
`State`: the three maps, the mutex bit, the two snapshot files, and the observable output (frames
handed to `Conn.WriteJSON`, lines handed to `log.Printf`, lines printed on standard output).

`sync.Mutex` is not reentrant: `Lock` on a mutex that is already held parks the calling goroutine
until somebody else calls `Unlock`.  Each operation below is run from its first statement to its
last as one step (that is the serialisation the mutex enforces), so whenever `Lock` finds the mutex
held, the holder is either the caller itself (a nested call, whose deferred `Unlock` only runs after
the callee comes back) or an earlier call that is itself parked for ever.  In both cases nobody will
ever release it, and the call ends as `Outcome.blocked`.

`users` and `chatHistory` are overwritten by `loadFromFile` at start-up, and decoding the JSON value
`null` leaves a nil map behind.  A nil map reads like an empty one, but an assignment to one of its
entries panics; the two maps are therefore optional tables (`none` is the nil map), and a call can
also end as `Outcome.panicked`: the deferred `Unlock` runs while the panic unwinds, and the panic
then leaves the function (in the server `net/http` recovers it and drops the connection, in the
client it ends the process).  `chatRooms` and every `Clients` map are only ever created by `make`.

Environment assumptions: the websocket upgrade succeeded, `os.Create` and the JSON encoder succeed
(otherwise `log.Fatalf` ends the process), and a failing `WriteJSON` is ignored exactly as the
source ignores its result.  Go iterates over a map in an unspecified order; the tables below are
iterated from their first entry to their last.
-/

namespace ChatApp

/-- Go `map[string]V` as a table of bindings; the first binding of a key is the live one. -/
abbrev GoMap (α : Type) := List (String × α)

/-- The lookup `v, exists := m[k]`. -/
def mapGet {α : Type} : GoMap α → String → Option α
  | [], _ => none
  | (k', v) :: rest, k => if k' = k then some v else mapGet rest k

/-- The assignment `m[k] = v`: overwrites the binding of `k` when there is one, adds one otherwise. -/
def mapSet {α : Type} : GoMap α → String → α → GoMap α
  | [], k, v => [(k, v)]
  | (k', v') :: rest, k, v => if k' = k then (k, v) :: rest else (k', v') :: mapSet rest k v

/-- The builtin `delete(m, k)`. -/
def mapDelete {α : Type} : GoMap α → String → GoMap α
  | [], _ => []
  | (k', v') :: rest, k => if k' = k then mapDelete rest k else (k', v') :: mapDelete rest k

/-- The keys of a map. -/
def mapKeys {α : Type} (m : GoMap α) : List String := m.map Prod.fst

/-- The lookup `v, exists := m[k]` on a map that may be nil: a nil map has no entries. -/
def tableGet {α : Type} (t : Option (GoMap α)) (k : String) : Option α :=
  match t with
  | none => none
  | some m => mapGet m k

/-- The index expression `m[k]` on a `map[string]string`: the zero value `""` for a missing key. -/
def mapIndex (m : GoMap String) (k : String) : String := (mapGet m k).getD ""

/-- A JSON object of string fields, as handed to `WriteJSON` or produced by `ReadJSON`. -/
abbrev Frame := GoMap String

/-- The struct `User`; `Conn` is the identity of the websocket connection. -/
structure User where
  Username : String
  Password : String
  Conn : Nat
deriving DecidableEq, Repr

/-- The struct `ChatRoom`. -/
structure ChatRoom where
  Name : String
  Clients : GoMap User
deriving DecidableEq, Repr

/-- What `saveToFile` encodes into a file: the credential map or the history map (a nil map is
encoded as `null`). -/
inductive Snapshot where
  | credentials (m : Option (GoMap String))
  | history (m : Option (GoMap (List String)))
deriving DecidableEq, Repr

/-- The package-level variables together with the files and the output of the process. -/
structure State where
  chatRooms : GoMap ChatRoom
  users : Option (GoMap String)
  chatHistory : Option (GoMap (List String))
  mutex : Bool
  files : GoMap Snapshot
  sent : List (Nat × Frame)
  logged : List String
  printed : List String
deriving DecidableEq, Repr

/-- How a call ends: it comes back with a value, it is parked for ever inside `mutex.Lock`, or
it is left by a panic. -/
inductive Outcome (α : Type) where
  | returned (val : α) (s : State)
  | blocked (s : State)
  | panicked (s : State)
deriving DecidableEq, Repr

/-- The shared state a call leaves behind, whichever way it ended. -/
def Outcome.state {α : Type} : Outcome α → State
  | .returned _ s => s
  | .blocked s => s
  | .panicked s => s

/-- Whether the call came back. -/
def Outcome.isReturned {α : Type} : Outcome α → Bool
  | .returned _ _ => true
  | .blocked _ => false
  | .panicked _ => false

def usersFile : String := "users.json"

def chatFile : String := "chat.json"

/-- The call `mutex.Lock()`: the state in which it comes back, `none` when it never does. -/
def Lock (s : State) : Option State :=
  if s.mutex then none else some { s with mutex := true }

/-- The call `mutex.Unlock()`. -/
def Unlock (s : State) : State := { s with mutex := false }

/-- The prologue `mutex.Lock(); defer mutex.Unlock()` around a function body: the deferred unlock
runs when the body returns or panics, and never when the body is parked. -/
def withMutex {α : Type} (body : State → Outcome α) (s : State) : Outcome α :=
  match Lock s with
  | none => .blocked s
  | some s1 =>
    match body s1 with
    | .blocked s2 => .blocked s2
    | .panicked s2 => .panicked (Unlock s2)
    | .returned v s2 => .returned v (Unlock s2)

/-- The call `conn.WriteJSON(frame)`. -/
def WriteJSON (conn : Nat) (frame : Frame) (s : State) : State :=
  { s with sent := s.sent ++ [(conn, frame)] }

/-- The call `log.Printf(line)`. -/
def logPrintf (line : String) (s : State) : State :=
  { s with logged := s.logged ++ [line] }

/-- The call `fmt.Println(line)`. -/
def fmtPrintln (line : String) (s : State) : State :=
  { s with printed := s.printed ++ [line] }

/-- Function `saveToFile(filename, data)`: the file is created anew and holds the encoding of `data`. -/
def saveToFile (filename : String) (data : Snapshot) (s : State) : State :=
  { s with files := mapSet s.files filename data }

/-- Function `saveData()`. -/
def saveData (s : State) : State :=
  saveToFile chatFile (.history s.chatHistory) (saveToFile usersFile (.credentials s.users) s)

/-- Function `cleanUsersData()`: the only key the loop deletes is the empty username; over a nil
map the loop does not run. -/
def cleanUsersData (s : State) : Outcome Unit :=
  withMutex (fun s1 =>
    let s2 := { s1 with users := s1.users.map (fun m => mapDelete m "") }
    .returned () (saveToFile usersFile (.credentials s2.users) s2)) s

/-- Function `authenticateUser(&user)`. -/
def authenticateUser (user : User) (s : State) : Outcome Bool :=
  if user.Username = "" ∨ user.Password = "" then .returned false s
  else
    withMutex (fun s1 =>
      match tableGet s1.users user.Username with
      | none => .returned false s1
      | some storedPassword =>
        if storedPassword = user.Password then .returned true s1 else .returned false s1) s

/-- The text a member sees for a broadcast: `(you): m` for the sender, `(sender): m` otherwise. -/
def displayMsg (username sender message : String) : String :=
  if username = sender then "(you): " ++ message else "(" ++ sender ++ "): " ++ message

/-- The loop `for username, client := range room.Clients` of `broadcastMessage`. -/
def broadcastLoop (sender message : String) : GoMap User → State → State
  | [], s => s
  | (username, client) :: rest, s =>
    broadcastLoop sender message rest
      (WriteJSON client.Conn [("sender", sender), ("message", displayMsg username sender message)] s)

/-- Function `broadcastMessage(roomName, sender, message)`; the assignment to
`chatHistory[roomName]` panics when `chatHistory` is nil. -/
def broadcastMessage (roomName sender message : String) (s : State) : Outcome Unit :=
  withMutex (fun s1 =>
    match mapGet s1.chatRooms roomName with
    | none => .returned () (logPrintf ("Room " ++ roomName ++ " does not exist") s1)
    | some room =>
      let entry := sender ++ ": " ++ message
      let history := (tableGet s1.chatHistory roomName).getD [] ++ [entry]
      match s1.chatHistory with
      | none => .panicked s1
      | some table =>
        let s2 := { s1 with chatHistory := some (mapSet table roomName history) }
        .returned () (broadcastLoop sender message room.Clients (saveData s2))) s

/-- Function `joinRoom(name, user)`. -/
def joinRoom (name : String) (user : User) (s : State) : Outcome Unit :=
  withMutex (fun s1 =>
    match mapGet s1.chatRooms name with
    | none => .returned () (WriteJSON user.Conn [("error", "Room does not exist")] s1)
    | some room =>
      let room1 := { room with Clients := mapSet room.Clients user.Username user }
      let s2 := { s1 with chatRooms := mapSet s1.chatRooms name room1 }
      broadcastMessage name "System" (user.Username ++ " has joined the room")
        (WriteJSON user.Conn [("info", "Joined room")] s2)) s

/-- Function `leaveRoom(name, user)`. -/
def leaveRoom (name : String) (user : User) (s : State) : Outcome Unit :=
  withMutex (fun s1 =>
    match mapGet s1.chatRooms name with
    | none => .returned () (WriteJSON user.Conn [("error", "Room does not exist")] s1)
    | some room =>
      let room1 := { room with Clients := mapDelete room.Clients user.Username }
      let s2 := { s1 with chatRooms := mapSet s1.chatRooms name room1 }
      broadcastMessage name "System" (user.Username ++ " has left the room")
        (WriteJSON user.Conn [("info", "Left room")] s2)) s

/-- Function `createRoom(name, user)`. -/
def createRoom (name : String) (user : User) (s : State) : Outcome Unit :=
  withMutex (fun s1 =>
    match mapGet s1.chatRooms name with
    | some _ => .returned () (WriteJSON user.Conn [("error", "Room already exists")] s1)
    | none =>
      let s2 := { s1 with chatRooms := mapSet s1.chatRooms name { Name := name, Clients := [] } }
      joinRoom name user (WriteJSON user.Conn [("info", "Room created")] s2)) s

/-- The loop `for _, room := range chatRooms` of `sendDirectMessage`, left at the first room that
has the recipient among its clients. -/
def directLoop (sender recipient message : String) : GoMap ChatRoom → State → State
  | [], s => s
  | (_, room) :: rest, s =>
    match mapGet room.Clients recipient with
    | some user =>
      WriteJSON user.Conn [("sender", sender), ("message", message), ("dm", "true")] s
    | none => directLoop sender recipient message rest s

/-- Function `sendDirectMessage(sender, recipient, message)`. -/
def sendDirectMessage (sender recipient message : String) (s : State) : Outcome Unit :=
  withMutex (fun s1 => .returned () (directLoop sender recipient message s1.chatRooms s1)) s

/-- The loop of `deleteUserFromAllRooms`: `delete(room.Clients, username)` in every room. -/
def deleteLoop (username : String) : GoMap ChatRoom → GoMap ChatRoom
  | [] => []
  | (name, room) :: rest =>
    (name, { room with Clients := mapDelete room.Clients username }) :: deleteLoop username rest

/-- Function `deleteUserFromAllRooms(username)`. -/
def deleteUserFromAllRooms (username : String) (s : State) : Outcome Unit :=
  withMutex (fun s1 => .returned () { s1 with chatRooms := deleteLoop username s1.chatRooms }) s

/-- Function `handleMessage(user, msg)`: the switch on `msg["action"]`; any other action does nothing. -/
def handleMessage (user : User) (msg : Frame) (s : State) : Outcome Unit :=
  let action := mapIndex msg "action"
  if action = "create" then createRoom (mapIndex msg "room") user s
  else if action = "join" then joinRoom (mapIndex msg "room") user s
  else if action = "leave" then leaveRoom (mapIndex msg "room") user s
  else if action = "message" then
    broadcastMessage (mapIndex msg "room") user.Username (mapIndex msg "message") s
  else if action = "dm" then
    sendDirectMessage user.Username (mapIndex msg "recipient") (mapIndex msg "message") s
  else .returned () s

/-- The read loop of `handleConnections`: the frames that `ReadJSON` delivers, in order, and then
the read failure `readErr` that ends the connection. -/
def readLoop (user : User) (readErr : String) : List Frame → State → Outcome Unit
  | [], s =>
    deleteUserFromAllRooms user.Username (logPrintf ("Failed to read message: " ++ readErr) s)
  | msg :: rest, s =>
    match handleMessage user msg s with
    | .blocked s1 => .blocked s1
    | .panicked s1 => .panicked s1
    | .returned _ s1 => readLoop user readErr rest s1

/-- Function `handleConnections` after the upgrade: `first` is what the first `ReadJSON` gave (the
credentials, or a read error), `msgs` and `readErr` are what the later reads give. -/
def handleConnections (conn : Nat) (first : Except String (String × String))
    (msgs : List Frame) (readErr : String) (s : State) : Outcome Unit :=
  match first with
  | .error e => .returned () (logPrintf ("Failed to read user: " ++ e) s)
  | .ok (username, password) =>
    let user : User := { Username := username, Password := password, Conn := conn }
    match authenticateUser user s with
    | .blocked s1 => .blocked s1
    | .panicked s1 => .panicked s1
    | .returned false s1 =>
      .returned () (WriteJSON conn [("error", "Invalid username or password")] s1)
    | .returned true s1 =>
      readLoop user readErr msgs (WriteJSON conn [("success", "Authenticated")] s1)

/-- Function `registerUser(username, password)`; the assignment to `users[username]` panics when
`users` is nil. -/
def registerUser (username password : String) (s : State) : Outcome Unit :=
  if username = "" ∨ password = "" then
    .returned () (fmtPrintln "Username and password cannot be empty" s)
  else
    withMutex (fun s1 =>
      match s1.users with
      | none => .panicked s1
      | some table =>
        .returned () (saveData { s1 with users := some (mapSet table username password) })) s

/-! ## Vocabulary of the statements -/

/-- The state of a freshly started server with nothing loaded: the maps are as `make` left
them. -/
def emptyState : State :=
  { chatRooms := [], users := some [], chatHistory := some [], mutex := false, files := [],
    sent := [], logged := [], printed := [] }

/-- The members of room `name`: the keys of its `Clients` map (none when there is no such room). -/
def members (s : State) (name : String) : List String :=
  match mapGet s.chatRooms name with
  | none => []
  | some room => mapKeys room.Clients

/-- The history of room `name`: `chatHistory[name]`, empty when the key is missing. -/
def historyOf (s : State) (name : String) : List String :=
  (tableGet s.chatHistory name).getD []

/-- The frames written to connection `conn`, in order. -/
def framesTo (s : State) (conn : Nat) : List Frame :=
  (s.sent.filter (fun e => e.1 = conn)).map Prod.snd

/-- The frame a client sends to create a room. -/
def createFrame (room : String) : Frame := [("action", "create"), ("room", room)]

/-- The frame a client sends to post a message to a room. -/
def messageFrame (room text : String) : Frame :=
  [("action", "message"), ("room", room), ("message", text)]

/-- The handler goroutine of one connection dispatching consecutive frames: the next frame is only
read once `handleMessage` has come back for the previous one. -/
def handleFrames (user : User) : List Frame → State → Outcome Unit
  | [], s => .returned () s
  | msg :: rest, s =>
    match handleMessage user msg s with
    | .blocked s1 => .blocked s1
    | .panicked s1 => .panicked s1
    | .returned _ s1 => handleFrames user rest s1

/-- One `joinRoom` or `leaveRoom` call on a room, made by the session of `user`. -/
inductive RoomCall where
  | join (user : User)
  | leave (user : User)
deriving DecidableEq, Repr

/-- The username a call is about. -/
def RoomCall.username : RoomCall → String
  | .join u => u.Username
  | .leave u => u.Username

/-- Calls of different sessions on room `name`, one after the other: each runs in its own
goroutine on the shared state the previous ones left behind, whether they came back or not. -/
def applyCalls (name : String) : List RoomCall → State → State
  | [], s => s
  | .join u :: rest, s => applyCalls name rest (joinRoom name u s).state
  | .leave u :: rest, s => applyCalls name rest (leaveRoom name u s).state

/-- Whether the last call about `username` in the sequence is a `joinRoom`. -/
def lastCallIsJoin (calls : List RoomCall) (username : String) : Bool :=
  match calls.reverse.find? (fun c => c.username = username) with
  | some (.join _) => true
  | _ => false

def alice : User := { Username := "alice", Password := "pw1", Conn := 1 }

def bob : User := { Username := "bob", Password := "pw2", Conn := 2 }

/-- A server whose only room is the empty room `general`. -/
def generalOnly : State :=
  { emptyState with chatRooms := [("general", { Name := "general", Clients := [] })] }

def carol : User := { Username := "carol", Password := "pw3", Conn := 3 }

/-- A server with two rooms: `general` with alice and bob, `random` with carol. -/
def lobby : State :=
  { emptyState with
    chatRooms := [("general", { Name := "general", Clients := [("alice", alice), ("bob", bob)] }),
                  ("random", { Name := "random", Clients := [("carol", carol)] })],
    users := some [("alice", "pw1"), ("bob", "pw2"), ("carol", "pw3")],
    chatHistory := some [("general", ["System: alice has joined the room"])] }

/-- The frame a client sends for a direct message. -/
def dmFrame (recipient text : String) : Frame :=
  [("action", "dm"), ("recipient", recipient), ("message", text)]

/-- The running server right after carol has sent `create` for `general` to the empty server. -/
def afterCreate : State := (createRoom "general" carol emptyState).state

/-! ## Lemmas on maps -/

theorem mapGet_mapSet_same {α : Type} (m : GoMap α) (k : String) (v : α) :
    mapGet (mapSet m k v) k = some v := by
  induction m with
  | nil => simp [mapSet, mapGet]
  | cons e rest ih =>
    obtain ⟨k', v'⟩ := e
    by_cases h : k' = k
    · simp [mapSet, mapGet, h]
    · simp [mapSet, mapGet, h, ih]

theorem mapGet_mapSet_other {α : Type} (m : GoMap α) (k k2 : String) (v : α) (hne : k2 ≠ k) :
    mapGet (mapSet m k v) k2 = mapGet m k2 := by
  induction m with
  | nil => simp [mapSet, mapGet, Ne.symm hne]
  | cons e rest ih =>
    obtain ⟨k', v'⟩ := e
    by_cases h : k' = k
    · subst h
      simp [mapSet, mapGet, Ne.symm hne]
    · by_cases h2 : k' = k2
      · subst h2
        simp [mapSet, mapGet, h]
      · simp [mapSet, mapGet, h, h2, ih]

theorem mapSet_of_mapGet {α : Type} (m : GoMap α) (k : String) (v : α)
    (h : mapGet m k = some v) : mapSet m k v = m := by
  induction m with
  | nil => simp [mapGet] at h
  | cons e rest ih =>
    obtain ⟨k', v'⟩ := e
    by_cases hk : k' = k
    · subst hk
      simp [mapGet] at h
      simp [mapSet, h]
    · simp [mapGet, hk] at h
      simp [mapSet, hk, ih h]

theorem mapGet_mapDelete_same {α : Type} (m : GoMap α) (k : String) :
    mapGet (mapDelete m k) k = none := by
  induction m with
  | nil => simp [mapDelete, mapGet]
  | cons e rest ih =>
    obtain ⟨k', v'⟩ := e
    by_cases h : k' = k
    · simp [mapDelete, h, ih]
    · simp [mapDelete, mapGet, h, ih]

theorem mapGet_mapDelete_other {α : Type} (m : GoMap α) (k k2 : String) (hne : k2 ≠ k) :
    mapGet (mapDelete m k) k2 = mapGet m k2 := by
  induction m with
  | nil => simp [mapDelete, mapGet]
  | cons e rest ih =>
    obtain ⟨k', v'⟩ := e
    by_cases h : k' = k
    · subst h
      simp [mapDelete, mapGet, Ne.symm hne, ih]
    · by_cases h2 : k' = k2
      · subst h2
        simp [mapDelete, mapGet, h]
      · simp [mapDelete, mapGet, h, h2, ih]

theorem mapDelete_of_absent {α : Type} (m : GoMap α) (k : String) (h : mapGet m k = none) :
    mapDelete m k = m := by
  induction m with
  | nil => simp [mapDelete]
  | cons e rest ih =>
    obtain ⟨k', v'⟩ := e
    by_cases hk : k' = k
    · simp [mapGet, hk] at h
    · simp [mapGet, hk] at h
      simp [mapDelete, hk, ih h]

theorem mapDelete_mapDelete {α : Type} (m : GoMap α) (k : String) :
    mapDelete (mapDelete m k) k = mapDelete m k :=
  mapDelete_of_absent _ _ (mapGet_mapDelete_same m k)

theorem mem_mapKeys_iff {α : Type} (m : GoMap α) (k : String) :
    k ∈ mapKeys m ↔ mapGet m k ≠ none := by
  induction m with
  | nil => simp [mapKeys, mapGet]
  | cons e rest ih =>
    obtain ⟨k', v'⟩ := e
    by_cases hk : k' = k
    · simp [mapKeys, mapGet, hk]
    · have ih2 : k ∈ List.map Prod.fst rest ↔ mapGet rest k ≠ none := ih
      simp only [mapKeys, List.map_cons, List.mem_cons, mapGet, hk, if_false]
      rw [ih2]
      constructor
      · rintro (h | h)
        · exact absurd h.symm hk
        · exact h
      · intro h
        exact Or.inr h

/-! ## Lemmas on the mutex -/

theorem withMutex_held {α : Type} (body : State → Outcome α) (s : State) (h : s.mutex = true) :
    withMutex body s = .blocked s := by
  simp [withMutex, Lock, h]

theorem withMutex_free {α : Type} (body : State → Outcome α) (s : State) (h : s.mutex = false) :
    withMutex body s =
      match body { s with mutex := true } with
      | .blocked s2 => .blocked s2
      | .panicked s2 => .panicked (Unlock s2)
      | .returned v s2 => .returned v (Unlock s2) := by
  simp [withMutex, Lock, h]

theorem withMutex_returned {α : Type} (body : State → Outcome α) (s s' : State) (v : α)
    (h : withMutex body s = .returned v s') : s.mutex = false ∧ s'.mutex = false := by
  by_cases hm : s.mutex = true
  · rw [withMutex_held body s hm] at h
    cases h
  · have hf : s.mutex = false := by simpa using hm
    refine ⟨hf, ?_⟩
    rw [withMutex_free body s hf] at h
    cases hb : body { s with mutex := true } with
    | blocked s2 =>
      rw [hb] at h
      cases h
    | panicked s2 =>
      rw [hb] at h
      cases h
    | returned w s2 =>
      rw [hb] at h
      rw [← (Outcome.returned.inj h).2]
      rfl

/-! ## Lemmas on the loops -/

theorem broadcastLoop_eq (sender message : String) (clients : GoMap User) (s : State) :
    broadcastLoop sender message clients s =
      { s with sent := s.sent ++ clients.map (fun e =>
          (e.2.Conn, [("sender", sender), ("message", displayMsg e.1 sender message)])) } := by
  induction clients generalizing s with
  | nil => simp [broadcastLoop]
  | cons e rest ih =>
    obtain ⟨username, client⟩ := e
    simp [broadcastLoop, ih, WriteJSON]

theorem directLoop_none (sender recipient message : String) (rooms : GoMap ChatRoom) (s : State)
    (h : ∀ e ∈ rooms, mapGet e.2.Clients recipient = none) :
    directLoop sender recipient message rooms s = s := by
  induction rooms with
  | nil => simp [directLoop]
  | cons e rest ih =>
    obtain ⟨name, room⟩ := e
    have h1 : mapGet room.Clients recipient = none := h (name, room) (List.mem_cons_self _ _)
    have h2 : ∀ e ∈ rest, mapGet e.2.Clients recipient = none :=
      fun e he => h e (List.mem_cons_of_mem _ he)
    simp [directLoop, h1, ih h2]

theorem directLoop_single (sender recipient message : String) (rooms : GoMap ChatRoom)
    (s : State) (name : String) (room : ChatRoom) (usr : User)
    (hone : rooms.filter (fun e => (mapGet e.2.Clients recipient).isSome) = [(name, room)])
    (husr : mapGet room.Clients recipient = some usr) :
    directLoop sender recipient message rooms s =
      WriteJSON usr.Conn [("sender", sender), ("message", message), ("dm", "true")] s := by
  induction rooms with
  | nil => simp at hone
  | cons e rest ih =>
    obtain ⟨name', room'⟩ := e
    cases hc : mapGet room'.Clients recipient with
    | none =>
      have hrest : rest.filter (fun e => (mapGet e.2.Clients recipient).isSome) = [(name, room)] := by
        simpa [List.filter_cons, hc] using hone
      simp [directLoop, hc, ih hrest]
    | some usr' =>
      have hhead : (name', room') = (name, room) := by
        have := hone
        simp only [List.filter_cons, hc, Option.isSome_some, if_true] at this
        exact (List.cons.inj this).1
      have hroom : room' = room := (Prod.mk.inj hhead).2
      subst hroom
      have : usr' = usr := by
        rw [hc] at husr
        exact Option.some.inj husr
      subst this
      simp [directLoop, hc]

theorem mapGet_deleteLoop (username : String) (rooms : GoMap ChatRoom) (name : String) :
    mapGet (deleteLoop username rooms) name =
      (mapGet rooms name).map (fun room =>
        { room with Clients := mapDelete room.Clients username }) := by
  induction rooms with
  | nil => simp [deleteLoop, mapGet]
  | cons e rest ih =>
    obtain ⟨name', room'⟩ := e
    by_cases h : name' = name
    · simp [deleteLoop, mapGet, h]
    · simp [deleteLoop, mapGet, h, ih]

theorem deleteLoop_deleteLoop (username : String) (rooms : GoMap ChatRoom) :
    deleteLoop username (deleteLoop username rooms) = deleteLoop username rooms := by
  induction rooms with
  | nil => simp [deleteLoop]
  | cons e rest ih =>
    obtain ⟨name', room'⟩ := e
    simp [deleteLoop, ih, mapDelete_mapDelete]

theorem mapKeys_deleteLoop (username : String) (rooms : GoMap ChatRoom) :
    mapKeys (deleteLoop username rooms) = mapKeys rooms := by
  induction rooms with
  | nil => simp [deleteLoop]
  | cons e rest ih =>
    obtain ⟨name', room'⟩ := e
    have ih2 : List.map Prod.fst (deleteLoop username rest) = List.map Prod.fst rest := ih
    simp [deleteLoop, mapKeys, ih2]

theorem not_mem_members_deleteLoop (s : State) (username name : String) :
    username ∉ members { s with chatRooms := deleteLoop username s.chatRooms } name := by
  simp only [members, mapGet_deleteLoop]
  cases h : mapGet s.chatRooms name with
  | none => simp
  | some room =>
    simp only [Option.map_some']
    rw [mem_mapKeys_iff]
    simp [mapGet_mapDelete_same]

theorem deleteUserFromAllRooms_free (username : String) (s : State) (h : s.mutex = false) :
    deleteUserFromAllRooms username s =
      .returned () { s with chatRooms := deleteLoop username s.chatRooms } := by
  obtain ⟨rooms, users, hist, mutex, files, sent, logged, printed⟩ := s
  simp only at h
  subst h
  simp [deleteUserFromAllRooms, withMutex, Lock, Unlock]
/-! ## Lemmas on the operations -/

theorem broadcastMessage_free (s : State) (R sender t : String) (room : ChatRoom)
    (table : GoMap (List String))
    (hfree : s.mutex = false) (hroom : mapGet s.chatRooms R = some room)
    (htable : s.chatHistory = some table) :
    broadcastMessage R sender t s = .returned ()
      { s with
        chatHistory := some (mapSet table R (historyOf s R ++ [sender ++ ": " ++ t])),
        files := mapSet (mapSet s.files usersFile (.credentials s.users)) chatFile
          (.history (some (mapSet table R (historyOf s R ++ [sender ++ ": " ++ t])))),
        sent := s.sent ++ room.Clients.map (fun e =>
          (e.2.Conn, [("sender", sender), ("message", displayMsg e.1 sender t)])) } := by
  obtain ⟨rooms, users, hist, mutex, files, sent, logged, printed⟩ := s
  simp only at hfree hroom htable
  subst hfree htable
  simp [broadcastMessage, withMutex, Lock, hroom, broadcastLoop_eq, Unlock, saveData, saveToFile,
    historyOf, tableGet]

theorem broadcastMessage_nil_history (s : State) (R sender t : String) (room : ChatRoom)
    (hfree : s.mutex = false) (hroom : mapGet s.chatRooms R = some room)
    (htable : s.chatHistory = none) :
    broadcastMessage R sender t s = .panicked s := by
  obtain ⟨rooms, users, hist, mutex, files, sent, logged, printed⟩ := s
  simp only at hfree hroom htable
  subst hfree htable
  simp [broadcastMessage, withMutex, Lock, hroom, Unlock]

theorem broadcastMessage_missing (s : State) (R sender t : String)
    (hfree : s.mutex = false) (hroom : mapGet s.chatRooms R = none) :
    broadcastMessage R sender t s = .returned ()
      { s with logged := s.logged ++ ["Room " ++ R ++ " does not exist"] } := by
  obtain ⟨rooms, users, hist, mutex, files, sent, logged, printed⟩ := s
  simp only at hfree hroom
  subst hfree
  simp [broadcastMessage, withMutex, Lock, hroom, Unlock, logPrintf]

theorem sendDirectMessage_free (s : State) (sender recipient text : String)
    (hfree : s.mutex = false) :
    sendDirectMessage sender recipient text s =
      .returned () (Unlock (directLoop sender recipient text s.chatRooms { s with mutex := true })) := by
  simp [sendDirectMessage, withMutex, Lock, hfree]

theorem joinRoom_missing (s : State) (R : String) (u : User)
    (hfree : s.mutex = false) (hroom : mapGet s.chatRooms R = none) :
    joinRoom R u s = .returned ()
      { s with sent := s.sent ++ [(u.Conn, [("error", "Room does not exist")])] } := by
  obtain ⟨rooms, users, hist, mutex, files, sent, logged, printed⟩ := s
  simp only at hfree hroom
  subst hfree
  simp [joinRoom, withMutex, Lock, hroom, Unlock, WriteJSON]

theorem leaveRoom_missing (s : State) (R : String) (u : User)
    (hfree : s.mutex = false) (hroom : mapGet s.chatRooms R = none) :
    leaveRoom R u s = .returned ()
      { s with sent := s.sent ++ [(u.Conn, [("error", "Room does not exist")])] } := by
  obtain ⟨rooms, users, hist, mutex, files, sent, logged, printed⟩ := s
  simp only at hfree hroom
  subst hfree
  simp [leaveRoom, withMutex, Lock, hroom, Unlock, WriteJSON]

theorem createRoom_existing (s : State) (R : String) (u : User) (room : ChatRoom)
    (hfree : s.mutex = false) (hroom : mapGet s.chatRooms R = some room) :
    createRoom R u s = .returned ()
      { s with sent := s.sent ++ [(u.Conn, [("error", "Room already exists")])] } := by
  obtain ⟨rooms, users, hist, mutex, files, sent, logged, printed⟩ := s
  simp only at hfree hroom
  subst hfree
  simp [createRoom, withMutex, Lock, hroom, Unlock, WriteJSON]

theorem joinRoom_existing (s : State) (R : String) (u : User) (room : ChatRoom)
    (hfree : s.mutex = false) (hroom : mapGet s.chatRooms R = some room) :
    joinRoom R u s = .blocked
      { s with
        mutex := true,
        chatRooms := mapSet s.chatRooms R
          { room with Clients := mapSet room.Clients u.Username u },
        sent := s.sent ++ [(u.Conn, [("info", "Joined room")])] } := by
  obtain ⟨rooms, users, hist, mutex, files, sent, logged, printed⟩ := s
  simp only at hfree hroom
  subst hfree
  simp [joinRoom, withMutex, Lock, hroom, WriteJSON, broadcastMessage]

theorem leaveRoom_existing (s : State) (R : String) (u : User) (room : ChatRoom)
    (hfree : s.mutex = false) (hroom : mapGet s.chatRooms R = some room) :
    leaveRoom R u s = .blocked
      { s with
        mutex := true,
        chatRooms := mapSet s.chatRooms R
          { room with Clients := mapDelete room.Clients u.Username },
        sent := s.sent ++ [(u.Conn, [("info", "Left room")])] } := by
  obtain ⟨rooms, users, hist, mutex, files, sent, logged, printed⟩ := s
  simp only at hfree hroom
  subst hfree
  simp [leaveRoom, withMutex, Lock, hroom, WriteJSON, broadcastMessage]

theorem createRoom_fresh (s : State) (R : String) (u : User)
    (hfree : s.mutex = false) (hroom : mapGet s.chatRooms R = none) :
    createRoom R u s = .blocked
      { s with
        mutex := true,
        chatRooms := mapSet s.chatRooms R { Name := R, Clients := [] },
        sent := s.sent ++ [(u.Conn, [("info", "Room created")])] } := by
  obtain ⟨rooms, users, hist, mutex, files, sent, logged, printed⟩ := s
  simp only at hfree hroom
  subst hfree
  simp [createRoom, withMutex, Lock, hroom, WriteJSON, joinRoom]

theorem handleMessage_create (u : User) (msg : Frame) (s : State)
    (h : mapIndex msg "action" = "create") :
    handleMessage u msg s = createRoom (mapIndex msg "room") u s := by
  simp [handleMessage, h]

theorem handleMessage_join (u : User) (msg : Frame) (s : State)
    (h : mapIndex msg "action" = "join") :
    handleMessage u msg s = joinRoom (mapIndex msg "room") u s := by
  simp [handleMessage, h]

theorem handleMessage_leave (u : User) (msg : Frame) (s : State)
    (h : mapIndex msg "action" = "leave") :
    handleMessage u msg s = leaveRoom (mapIndex msg "room") u s := by
  simp [handleMessage, h]

theorem handleMessage_message (u : User) (msg : Frame) (s : State)
    (h : mapIndex msg "action" = "message") :
    handleMessage u msg s =
      broadcastMessage (mapIndex msg "room") u.Username (mapIndex msg "message") s := by
  simp [handleMessage, h]

theorem handleMessage_returned_free (u : User) (msg : Frame) (s s' : State) (v : Unit)
    (h : handleMessage u msg s = .returned v s') (hfree : s.mutex = false) :
    s'.mutex = false := by
  unfold handleMessage at h
  simp only at h
  split at h
  · exact (withMutex_returned _ _ _ _ h).2
  · split at h
    · exact (withMutex_returned _ _ _ _ h).2
    · split at h
      · exact (withMutex_returned _ _ _ _ h).2
      · split at h
        · exact (withMutex_returned _ _ _ _ h).2
        · split at h
          · exact (withMutex_returned _ _ _ _ h).2
          · rw [← (Outcome.returned.inj h).2]
            exact hfree

theorem handleFrames_returned_free (user : User) (msgs : List Frame) (s s2 : State)
    (h : handleFrames user msgs s = .returned () s2) (hfree : s.mutex = false) :
    s2.mutex = false := by
  induction msgs generalizing s with
  | nil =>
    simp only [handleFrames] at h
    rw [← (Outcome.returned.inj h).2]
    exact hfree
  | cons msg rest ih =>
    simp only [handleFrames] at h
    cases ho : handleMessage user msg s with
    | blocked s1 =>
      rw [ho] at h
      cases h
    | panicked s1 =>
      rw [ho] at h
      cases h
    | returned v s1 =>
      rw [ho] at h
      exact ih s1 h (handleMessage_returned_free user msg s s1 v ho hfree)

theorem readLoop_of_handleFrames (user : User) (readErr : String) (msgs : List Frame)
    (s s2 : State) (h : handleFrames user msgs s = .returned () s2) :
    readLoop user readErr msgs s =
      deleteUserFromAllRooms user.Username
        (logPrintf ("Failed to read message: " ++ readErr) s2) := by
  induction msgs generalizing s with
  | nil =>
    simp only [handleFrames] at h
    rw [← (Outcome.returned.inj h).2]
    rfl
  | cons msg rest ih =>
    simp only [handleFrames] at h
    cases ho : handleMessage user msg s with
    | blocked s1 =>
      rw [ho] at h
      cases h
    | panicked s1 =>
      rw [ho] at h
      cases h
    | returned v s1 =>
      rw [ho] at h
      simp only [readLoop, ho]
      exact ih s1 h

theorem handleConnections_authenticated (conn : Nat) (u p : String) (msgs : List Frame)
    (readErr : String) (s sa : State)
    (h : authenticateUser { Username := u, Password := p, Conn := conn } s = .returned true sa) :
    handleConnections conn (.ok (u, p)) msgs readErr s =
      readLoop { Username := u, Password := p, Conn := conn } readErr msgs
        (WriteJSON conn [("success", "Authenticated")] sa) := by
  simp [handleConnections, h]

theorem authenticateUser_free (s : State) (user : User) (hfree : s.mutex = false) :
    authenticateUser user s = .returned
      (decide (user.Username ≠ "" ∧ user.Password ≠ "" ∧
        tableGet s.users user.Username = some user.Password)) s := by
  obtain ⟨rooms, users, hist, mutex, files, sent, logged, printed⟩ := s
  simp only at hfree
  subst hfree
  by_cases h1 : user.Username = ""
  · simp [authenticateUser, h1]
  · by_cases h2 : user.Password = ""
    · simp [authenticateUser, h2]
    · cases h3 : tableGet users user.Username with
      | none => simp [authenticateUser, h1, h2, withMutex, Lock, h3, Unlock]
      | some stored =>
        by_cases h4 : stored = user.Password
        · simp [authenticateUser, h1, h2, withMutex, Lock, h3, Unlock, h4]
        · simp [authenticateUser, h1, h2, withMutex, Lock, h3, Unlock, h4]

theorem authenticateUser_true_free (s sa : State) (user : User)
    (h : authenticateUser user s = .returned true sa) : sa.mutex = false := by
  unfold authenticateUser at h
  split at h
  · cases h
  · exact (withMutex_returned _ _ _ _ h).2

theorem registerUser_free (s : State) (u p : String) (table : GoMap String)
    (hfree : s.mutex = false) (htable : s.users = some table) (hu : u ≠ "") (hp : p ≠ "") :
    registerUser u p s = .returned ()
      { s with
        users := some (mapSet table u p),
        files := mapSet (mapSet s.files usersFile (.credentials (some (mapSet table u p))))
          chatFile (.history s.chatHistory) } := by
  obtain ⟨rooms, users, hist, mutex, files, sent, logged, printed⟩ := s
  simp only at hfree htable
  subst hfree htable
  simp [registerUser, hu, hp, withMutex, Lock, Unlock, saveData, saveToFile]

theorem registerUser_nil_store (s : State) (u p : String)
    (hfree : s.mutex = false) (htable : s.users = none) (hu : u ≠ "") (hp : p ≠ "") :
    registerUser u p s = .panicked s := by
  obtain ⟨rooms, users, hist, mutex, files, sent, logged, printed⟩ := s
  simp only at hfree htable
  subst hfree htable
  simp [registerUser, hu, hp, withMutex, Lock, Unlock]

theorem leaveRoom_absent_state (s : State) (R : String) (u : User) (room : ChatRoom)
    (hroom : mapGet s.chatRooms R = some room)
    (habsent : mapGet room.Clients u.Username = none) :
    (leaveRoom R u s).state =
      if s.mutex = true then s
      else { s with mutex := true, sent := s.sent ++ [(u.Conn, [("info", "Left room")])] } := by
  by_cases hm : s.mutex = true
  · rw [leaveRoom, withMutex_held _ s hm]
    simp [hm, Outcome.state]
  · have hf : s.mutex = false := by simpa using hm
    rw [leaveRoom_existing s R u room hf hroom, mapDelete_of_absent _ _ habsent]
    simp [hm, Outcome.state, mapSet_of_mapGet _ _ _ hroom]

/-! ## The claims -/

/-- C6: `sendDirectMessage(sender, recipient, text)` called with the mutex free returns.  When
exactly one room has `recipient` among its clients, exactly one frame is written, to the connection
stored for the recipient in that room, and it is the object with `sender`, the unaltered `text` as
`message`, and `dm` set to `"true"`.  When no room has the recipient, nothing is written at all.  In
both cases nothing but the list of written frames changes: rooms, memberships, histories,
credentials, files and log stay as they were. -/
theorem sendDirectMessage_delivers_once (s : State) (sender recipient text : String)
    (hfree : s.mutex = false) :
    (∀ name room usr,
        s.chatRooms.filter (fun e => (mapGet e.2.Clients recipient).isSome) = [(name, room)] →
        mapGet room.Clients recipient = some usr →
        sendDirectMessage sender recipient text s = .returned ()
          { s with sent := s.sent ++
              [(usr.Conn, [("sender", sender), ("message", text), ("dm", "true")])] }) ∧
    ((∀ e ∈ s.chatRooms, mapGet e.2.Clients recipient = none) →
        sendDirectMessage sender recipient text s = .returned () s) := by
  obtain ⟨rooms, users, hist, mutex, files, sent, logged, printed⟩ := s
  simp only at hfree
  subst hfree
  constructor
  · intro name room usr hone husr
    rw [sendDirectMessage_free _ _ _ _ rfl]
    simp only at hone
    rw [directLoop_single sender recipient text rooms _ name room usr hone husr]
    rfl
  · intro hnone
    rw [sendDirectMessage_free _ _ _ _ rfl]
    simp only at hnone
    rw [directLoop_none sender recipient text rooms _ hnone]
    rfl

theorem sendDirectMessage_delivers_once_witness :
    lobby.mutex = false ∧
    (lobby.chatRooms.filter (fun e => (mapGet e.2.Clients "carol").isSome)
        = [("random", { Name := "random", Clients := [("carol", carol)] })] ∧
      mapGet [("carol", carol)] "carol" = some carol ∧
      sendDirectMessage "alice" "carol" "psst" lobby = .returned ()
        { lobby with sent := lobby.sent ++
            [(3, [("sender", "alice"), ("message", "psst"), ("dm", "true")])] }) ∧
    ((∀ e ∈ lobby.chatRooms, mapGet e.2.Clients "dave" = none) ∧
      sendDirectMessage "alice" "dave" "psst" lobby = .returned () lobby) :=
  ⟨rfl,
    ⟨by decide, by decide,
      (sendDirectMessage_delivers_once lobby "alice" "carol" "psst" rfl).1 "random"
        { Name := "random", Clients := [("carol", carol)] } carol (by decide) (by decide)⟩,
    ⟨by decide,
      (sendDirectMessage_delivers_once lobby "alice" "dave" "psst" rfl).2 (by decide)⟩⟩

/-- C7 (counterexample): the store read from `users.json` maps `alice` to the empty password, and
`cleanUsersData` keeps that record, yet `authenticateUser` answers `false` for `alice` with the
empty password, so it does not return true exactly when the store maps the username to the
password. -/
theorem authenticateUser_empty_password_counterexample :
    (cleanUsersData { emptyState with users := some [("alice", "")] }).state.users = some [("alice", "")] ∧
    tableGet (some [("alice", "")]) "alice" = some "" ∧
    authenticateUser { Username := "alice", Password := "", Conn := 1 }
        { emptyState with users := some [("alice", "")] }
      = .returned false { emptyState with users := some [("alice", "")] } ∧
    ¬ (authenticateUser { Username := "alice", Password := "", Conn := 1 }
          { emptyState with users := some [("alice", "")] }
        = .returned true { emptyState with users := some [("alice", "")] }
      ↔ tableGet (some [("alice", "")]) "alice" = some "") := by
  decide

/-- C7 (amended): called with the mutex free, `authenticateUser` returns, leaves the state as it
was, and answers true exactly when the username and the password are both non-empty and the store
maps the username to that password; for a username without a record it answers false; and when it
answers false, `handleConnections` writes the one frame with error `Invalid username or password`
to the connection and returns with everything else unchanged. -/
theorem authenticateUser_lookup (s : State) (user : User) (hfree : s.mutex = false) :
    (∃ b, authenticateUser user s = .returned b s ∧
      (b = true ↔ user.Username ≠ "" ∧ user.Password ≠ "" ∧
        tableGet s.users user.Username = some user.Password)) ∧
    (tableGet s.users user.Username = none → authenticateUser user s = .returned false s) ∧
    (∀ msgs readErr, authenticateUser user s = .returned false s →
      handleConnections user.Conn (.ok (user.Username, user.Password)) msgs readErr s =
        .returned ()
          { s with sent := s.sent ++ [(user.Conn, [("error", "Invalid username or password")])] }) := by
  refine ⟨⟨_, authenticateUser_free s user hfree, by simp⟩, ?_, ?_⟩
  · intro hnone
    rw [authenticateUser_free s user hfree]
    simp [hnone]
  · intro msgs readErr hfalse
    simp [handleConnections, hfalse, WriteJSON]

theorem authenticateUser_lookup_witness :
    ({ emptyState with users := some [("alice", "pw1")] } : State).mutex = false ∧
    authenticateUser alice { emptyState with users := some [("alice", "pw1")] }
      = .returned true { emptyState with users := some [("alice", "pw1")] } ∧
    authenticateUser bob { emptyState with users := some [("alice", "pw1")] }
      = .returned false { emptyState with users := some [("alice", "pw1")] } ∧
    handleConnections 2 (.ok ("bob", "pw2")) [createFrame "general"] "EOF"
        { emptyState with users := some [("alice", "pw1")] }
      = .returned ()
        { emptyState with
          users := some [("alice", "pw1")],
          sent := [(2, [("error", "Invalid username or password")])] } := by
  have hb := authenticateUser_lookup { emptyState with users := some [("alice", "pw1")] } bob rfl
  refine ⟨rfl, by decide, hb.2.1 (by decide), ?_⟩
  exact hb.2.2 [createFrame "general"] "EOF" (hb.2.1 (by decide))

/-- C5 (counterexample): on a server without a room `nowhere`, the action `message` for `nowhere`
returns after one line in the server log; no frame is written to anybody, so the sender does not
receive an error frame. -/
theorem message_to_missing_room_counterexample :
    mapGet emptyState.chatRooms "nowhere" = none ∧
    handleMessage alice (messageFrame "nowhere" "hi") emptyState
      = .returned () { emptyState with logged := ["Room nowhere does not exist"] } ∧
    ¬ ∃ e, (handleMessage alice (messageFrame "nowhere" "hi") emptyState).state.sent
        = emptyState.sent ++ [(alice.Conn, [("error", e)])] := by
  refine ⟨by decide, by decide, ?_⟩
  rintro ⟨e, he⟩
  have h : (handleMessage alice (messageFrame "nowhere" "hi") emptyState).state.sent = [] := by
    decide
  rw [h] at he
  simp [emptyState] at he

/-- C5 (amended): with the mutex free, an action frame `join` or `leave` that names a room that
does not exist, and an action frame `create` that names a room that exists, make the handler
return after writing exactly one error frame, to the sender, and nothing else changes; an action
frame `message` that names a room that does not exist makes the handler return after one line in
the server log, with no frame written to anybody and nothing else changed.  In all four cases the
room directory, every membership set and every history are as before. -/
theorem room_lookup_failures (s : State) (u : User) (msg : Frame) (hfree : s.mutex = false) :
    (mapGet s.chatRooms (mapIndex msg "room") = none →
      (mapIndex msg "action" = "join" ∨ mapIndex msg "action" = "leave" →
        handleMessage u msg s = .returned ()
          { s with sent := s.sent ++ [(u.Conn, [("error", "Room does not exist")])] }) ∧
      (mapIndex msg "action" = "message" →
        handleMessage u msg s = .returned ()
          { s with logged := s.logged ++ ["Room " ++ mapIndex msg "room" ++ " does not exist"] })) ∧
    (mapGet s.chatRooms (mapIndex msg "room") ≠ none → mapIndex msg "action" = "create" →
      handleMessage u msg s = .returned ()
        { s with sent := s.sent ++ [(u.Conn, [("error", "Room already exists")])] }) := by
  refine ⟨fun hnone => ⟨?_, ?_⟩, ?_⟩
  · rintro (h | h)
    · rw [handleMessage_join u msg s h]
      exact joinRoom_missing s _ u hfree hnone
    · rw [handleMessage_leave u msg s h]
      exact leaveRoom_missing s _ u hfree hnone
  · intro h
    rw [handleMessage_message u msg s h]
    exact broadcastMessage_missing s _ _ _ hfree hnone
  · intro hsome h
    rw [handleMessage_create u msg s h]
    cases hr : mapGet s.chatRooms (mapIndex msg "room") with
    | none => exact absurd hr hsome
    | some room => exact createRoom_existing s _ u room hfree hr

theorem room_lookup_failures_witness :
    lobby.mutex = false ∧
    mapGet lobby.chatRooms "nowhere" = none ∧
    handleMessage alice [("action", "join"), ("room", "nowhere")] lobby = .returned ()
      { lobby with sent := lobby.sent ++ [(1, [("error", "Room does not exist")])] } ∧
    handleMessage alice [("action", "leave"), ("room", "nowhere")] lobby = .returned ()
      { lobby with sent := lobby.sent ++ [(1, [("error", "Room does not exist")])] } ∧
    handleMessage alice (messageFrame "nowhere" "hi") lobby = .returned ()
      { lobby with logged := lobby.logged ++ ["Room nowhere does not exist"] } ∧
    mapGet lobby.chatRooms "general" ≠ none ∧
    handleMessage alice (createFrame "general") lobby = .returned ()
      { lobby with sent := lobby.sent ++ [(1, [("error", "Room already exists")])] } :=
  ⟨rfl, by decide,
    ((room_lookup_failures lobby alice [("action", "join"), ("room", "nowhere")] rfl).1
      (by decide)).1 (Or.inl (by decide)),
    ((room_lookup_failures lobby alice [("action", "leave"), ("room", "nowhere")] rfl).1
      (by decide)).1 (Or.inr (by decide)),
    ((room_lookup_failures lobby alice (messageFrame "nowhere" "hi") rfl).1
      (by decide)).2 (by decide),
    by decide,
    (room_lookup_failures lobby alice (createFrame "general") rfl).2 (by decide) (by decide)⟩

/-- C9 (the code at the failing inputs): with the mutex free, `createRoom` of a new room, and
`joinRoom` and `leaveRoom` of an existing room, each acquire the mutex and then call a function
that acquires it again; the call is parked for ever with the mutex held, after the first frame
has been written. -/
theorem nested_lock_parks_the_caller :
    createRoom "general" alice emptyState = .blocked
      { emptyState with
        chatRooms := [("general", { Name := "general", Clients := [] })],
        mutex := true,
        sent := [(1, [("info", "Room created")])] } ∧
    joinRoom "general" alice generalOnly = .blocked
      { emptyState with
        chatRooms := [("general", { Name := "general", Clients := [("alice", alice)] })],
        mutex := true,
        sent := [(1, [("info", "Joined room")])] } ∧
    leaveRoom "general" alice generalOnly = .blocked
      { emptyState with
        chatRooms := [("general", { Name := "general", Clients := [] })],
        mutex := true,
        sent := [(1, [("info", "Left room")])] } ∧
    (handleMessage alice (createFrame "general") emptyState).isReturned = false ∧
    (handleMessage alice (createFrame "general") emptyState).state.mutex = true := by
  decide

/-- C2 (the code at the failing input): on the empty room `general`, `joinRoom` for alice followed
by `joinRoom` for bob leaves alice as the only member, although the last call about bob is a
`joinRoom`: the first call is parked holding the mutex, and the second is parked at its own
`Lock` before it touches the room.  Likewise on the room as the running server has it, right
after carol's `createRoom` (which is parked holding the mutex): `joinRoom` for bob leaves the
membership empty. -/
theorem second_join_never_lands :
    members generalOnly "general" = [] ∧
    members (applyCalls "general" [.join alice, .join bob] generalOnly) "general" = ["alice"] ∧
    lastCallIsJoin [.join alice, .join bob] "bob" = true ∧
    joinRoom "general" bob (joinRoom "general" alice generalOnly).state
      = .blocked (joinRoom "general" alice generalOnly).state ∧
    members (createRoom "general" carol emptyState).state "general" = [] ∧
    members (applyCalls "general" [.join bob] (createRoom "general" carol emptyState).state)
      "general" = [] ∧
    lastCallIsJoin [.join bob] "bob" = true := by
  decide

/-- C1 (the code at the failing input): from the empty server, alice sends `create` for `general`
and then `message` for `general` with text `hi`.  The handler is parked inside `create`, in the
`Lock` of `joinRoom`: alice is not a member of `general`, the only frame she has received is
`Room created`, the second frame is never read, and the history of `general` is empty, so none of
the three parts of the scenario is reached. -/
theorem create_then_message_parks :
    mapGet emptyState.chatRooms "general" = none ∧
    handleFrames alice [createFrame "general", messageFrame "general" "hi"] emptyState
      = .blocked
        { emptyState with
          chatRooms := [("general", { Name := "general", Clients := [] })],
          mutex := true,
          sent := [(1, [("info", "Room created")])] } ∧
    ¬ (members (handleFrames alice [createFrame "general", messageFrame "general" "hi"]
        emptyState).state "general" = ["alice"]) ∧
    ¬ ((framesTo (handleFrames alice [createFrame "general", messageFrame "general" "hi"]
        emptyState).state alice.Conn).take 2
          = [[("info", "Room created")], [("info", "Joined room")]]) ∧
    ¬ (historyOf (handleFrames alice [createFrame "general", messageFrame "general" "hi"]
        emptyState).state "general" = ["alice: hi"]) := by
  decide

/-- C3 (the code at the failing input): on the running server the room `general` exists only
after carol's `create`, which is parked holding the mutex.  There `broadcastMessage("general",
"alice", "hi")`, and the action `message` that calls it, is parked at its own `Lock`: the history
of `general` stays empty instead of becoming the one entry `alice: hi`, and nothing is written. -/
theorem message_after_create_is_parked :
    afterCreate.chatRooms = [("general", { Name := "general", Clients := [] })] ∧
    afterCreate.mutex = true ∧
    historyOf afterCreate "general" = [] ∧
    broadcastMessage "general" "alice" "hi" afterCreate = .blocked afterCreate ∧
    handleMessage alice (messageFrame "general" "hi") afterCreate = .blocked afterCreate ∧
    ¬ (historyOf (broadcastMessage "general" "alice" "hi" afterCreate).state "general"
        = historyOf afterCreate "general" ++ ["alice: hi"]) := by
  decide

/-- C4: for an existing room `R` and a user `u` who is not among its clients, in every state,
`leaveRoom(R, u)` writes no frame other than the acknowledgement `Left room` to `u` (so no error
frame and no broadcast of a `left` message to anybody), appends nothing to any history, and leaves
the room directory with every membership set as it was; a second `leaveRoom(R, u)` right after
the first changes nothing at all, so two calls in a row add no `left` entry and no `left`
broadcast. -/
theorem leaveRoom_absent_user (s : State) (R : String) (u : User) (room : ChatRoom)
    (hroom : mapGet s.chatRooms R = some room)
    (habsent : mapGet room.Clients u.Username = none) :
    (∃ new, (leaveRoom R u s).state.sent = s.sent ++ new ∧
      ∀ f ∈ new, f = (u.Conn, [("info", "Left room")])) ∧
    (leaveRoom R u s).state.chatHistory = s.chatHistory ∧
    (leaveRoom R u s).state.chatRooms = s.chatRooms ∧
    (leaveRoom R u (leaveRoom R u s).state).state = (leaveRoom R u s).state ∧
    historyOf (leaveRoom R u (leaveRoom R u s).state).state R = historyOf s R := by
  have h1 := leaveRoom_absent_state s R u room hroom habsent
  have hrooms : (leaveRoom R u s).state.chatRooms = s.chatRooms := by
    rw [h1]
    split <;> rfl
  have hhist : (leaveRoom R u s).state.chatHistory = s.chatHistory := by
    rw [h1]
    split <;> rfl
  have h2 : (leaveRoom R u (leaveRoom R u s).state).state = (leaveRoom R u s).state := by
    have hroom1 : mapGet (leaveRoom R u s).state.chatRooms R = some room := by
      rw [hrooms]
      exact hroom
    rw [leaveRoom_absent_state _ R u room hroom1 habsent]
    by_cases hm : s.mutex = true
    · have hs : (leaveRoom R u s).state = s := by
        rw [h1]
        simp [hm]
      rw [hs]
      simp [hm]
    · have hs : (leaveRoom R u s).state.mutex = true := by
        rw [h1]
        simp [hm]
      simp [hs]
  refine ⟨?_, hhist, hrooms, h2, ?_⟩
  · by_cases hm : s.mutex = true
    · refine ⟨[], ?_, by simp⟩
      rw [h1]
      simp [hm]
    · refine ⟨[(u.Conn, [("info", "Left room")])], ?_, by simp⟩
      rw [h1]
      simp [hm]
  · rw [h2]
    simp only [historyOf, hhist]

theorem leaveRoom_absent_user_witness :
    (mapGet afterCreate.chatRooms "general" = some { Name := "general", Clients := [] } ∧
      mapGet ([] : GoMap User) alice.Username = none ∧
      (leaveRoom "general" alice afterCreate).state.chatHistory = afterCreate.chatHistory ∧
      (leaveRoom "general" alice afterCreate).state.chatRooms = afterCreate.chatRooms) ∧
    (mapGet lobby.chatRooms "random" = some { Name := "random", Clients := [("carol", carol)] } ∧
      mapGet [("carol", carol)] alice.Username = none ∧
      (∃ new, (leaveRoom "random" alice lobby).state.sent = lobby.sent ++ new ∧
        ∀ f ∈ new, f = (alice.Conn, [("info", "Left room")])) ∧
      (leaveRoom "random" alice (leaveRoom "random" alice lobby).state).state
        = (leaveRoom "random" alice lobby).state) :=
  ⟨⟨by decide, by decide,
      (leaveRoom_absent_user afterCreate "general" alice
        { Name := "general", Clients := [] } (by decide) (by decide)).2.1,
      (leaveRoom_absent_user afterCreate "general" alice
        { Name := "general", Clients := [] } (by decide) (by decide)).2.2.1⟩,
    ⟨by decide, by decide,
      (leaveRoom_absent_user lobby "random" alice
        { Name := "random", Clients := [("carol", carol)] } (by decide) (by decide)).1,
      (leaveRoom_absent_user lobby "random" alice
        { Name := "random", Clients := [("carol", carol)] } (by decide) (by decide)).2.2.2.1⟩⟩

/-- C8: `deleteUserFromAllRooms(u)` called with the mutex free returns; afterwards `u` is a member
of no room, every room is still there under its name with every other user's client entry
unchanged, histories, credentials and written frames are unchanged, and running it once more
changes nothing.  The connection handler calls it when a read of an authenticated connection
fails: for a connection authenticated as `u`, once the frames read before the failure have been
handled, `handleConnections` is exactly the call of `deleteUserFromAllRooms(u)` on the state they
left after the log line, and it returns with `u` in no membership set; in particular a connection
that presents the stored credentials and fails at its first read returns with `u` purged. -/
theorem deleteUserFromAllRooms_purges (s : State) (u : String) (hfree : s.mutex = false) :
    ∃ s', deleteUserFromAllRooms u s = .returned () s' ∧
      (∀ R, u ∉ members s' R) ∧
      (∀ R room, mapGet s.chatRooms R = some room →
        ∃ room', mapGet s'.chatRooms R = some room' ∧ room'.Name = room.Name ∧
          ∀ v, v ≠ u → mapGet room'.Clients v = mapGet room.Clients v) ∧
      mapKeys s'.chatRooms = mapKeys s.chatRooms ∧
      s'.chatHistory = s.chatHistory ∧ s'.users = s.users ∧ s'.sent = s.sent ∧
      s'.mutex = false ∧
      deleteUserFromAllRooms u s' = .returned () s' ∧
      (∀ conn p msgs readErr sa s2,
        authenticateUser { Username := u, Password := p, Conn := conn } s = .returned true sa →
        handleFrames { Username := u, Password := p, Conn := conn } msgs
            (WriteJSON conn [("success", "Authenticated")] sa) = .returned () s2 →
        handleConnections conn (.ok (u, p)) msgs readErr s
            = deleteUserFromAllRooms u (logPrintf ("Failed to read message: " ++ readErr) s2) ∧
          ∃ s1, handleConnections conn (.ok (u, p)) msgs readErr s = .returned () s1 ∧
            s1.chatRooms = deleteLoop u s2.chatRooms ∧ ∀ R, u ∉ members s1 R) ∧
      (∀ conn p readErr, u ≠ "" → p ≠ "" → tableGet s.users u = some p →
        ∃ s1, handleConnections conn (.ok (u, p)) [] readErr s = .returned () s1 ∧
          ∀ R, u ∉ members s1 R) := by
  refine ⟨_, deleteUserFromAllRooms_free u s hfree, not_mem_members_deleteLoop s u, ?_,
    mapKeys_deleteLoop u s.chatRooms, rfl, rfl, rfl, hfree, ?_, ?_, ?_⟩
  · intro R room hroom
    refine ⟨{ room with Clients := mapDelete room.Clients u }, ?_, rfl, ?_⟩
    · simp [mapGet_deleteLoop, hroom]
    · intro v hv
      exact mapGet_mapDelete_other _ _ _ hv
  · have h2 := deleteUserFromAllRooms_free u
      { s with chatRooms := deleteLoop u s.chatRooms } hfree
    simpa [deleteLoop_deleteLoop] using h2
  · intro conn p msgs readErr sa s2 hauth hframes
    have hsa : (WriteJSON conn [("success", "Authenticated")] sa).mutex = false :=
      authenticateUser_true_free s sa _ hauth
    have hs2 : (logPrintf ("Failed to read message: " ++ readErr) s2).mutex = false :=
      handleFrames_returned_free _ msgs _ s2 hframes hsa
    have heq : handleConnections conn (.ok (u, p)) msgs readErr s
        = deleteUserFromAllRooms u (logPrintf ("Failed to read message: " ++ readErr) s2) := by
      rw [handleConnections_authenticated conn u p msgs readErr s sa hauth]
      exact readLoop_of_handleFrames _ readErr msgs _ s2 hframes
    refine ⟨heq,
      { logPrintf ("Failed to read message: " ++ readErr) s2 with
        chatRooms := deleteLoop u s2.chatRooms }, ?_, rfl, ?_⟩
    · rw [heq]
      exact deleteUserFromAllRooms_free u _ hs2
    · exact not_mem_members_deleteLoop (logPrintf ("Failed to read message: " ++ readErr) s2) u
  · intro conn p readErr hu hp hstore
    have hauth : authenticateUser { Username := u, Password := p, Conn := conn } s
        = .returned true s := by
      rw [authenticateUser_free s _ hfree]
      simp [hu, hp, hstore]
    have hs2 : (logPrintf ("Failed to read message: " ++ readErr)
        (WriteJSON conn [("success", "Authenticated")] s)).mutex = false := hfree
    have hcall : handleConnections conn (.ok (u, p)) [] readErr s
        = deleteUserFromAllRooms u (logPrintf ("Failed to read message: " ++ readErr)
            (WriteJSON conn [("success", "Authenticated")] s)) := by
      rw [handleConnections_authenticated conn u p [] readErr s s hauth]
      rfl
    rw [hcall]
    exact ⟨_, deleteUserFromAllRooms_free u _ hs2, not_mem_members_deleteLoop _ u⟩

theorem deleteUserFromAllRooms_purges_witness :
    lobby.mutex = false ∧
    "alice" ∈ members lobby "general" ∧
    (∃ s', deleteUserFromAllRooms "alice" lobby = .returned () s' ∧
      (∀ R, "alice" ∉ members s' R)) ∧
    (∃ s1, handleConnections 1 (.ok ("alice", "pw1"))
        [dmFrame "carol" "psst", messageFrame "nowhere" "hi"] "EOF" lobby = .returned () s1 ∧
      s1.chatRooms = [("general", { Name := "general", Clients := [("bob", bob)] }),
                      ("random", { Name := "random", Clients := [("carol", carol)] })] ∧
      ∀ R, "alice" ∉ members s1 R) := by
  obtain ⟨s', h, hmem, _, _, _, _, _, _, _, hframes, _⟩ :=
    deleteUserFromAllRooms_purges lobby "alice" rfl
  refine ⟨rfl, by decide, ⟨s', h, hmem⟩, ?_⟩
  obtain ⟨_, s1, hs1, hrooms, hout⟩ := hframes 1 "pw1"
    [dmFrame "carol" "psst", messageFrame "nowhere" "hi"] "EOF" lobby
    (handleFrames alice [dmFrame "carol" "psst", messageFrame "nowhere" "hi"]
      (WriteJSON 1 [("success", "Authenticated")] lobby)).state
    (by decide) (by decide)
  refine ⟨s1, hs1, ?_, hout⟩
  rw [hrooms]
  decide

/-- C10 (counterexample): the store maps `alice` to `pw1`; after `registerUser("alice", "pw2")` it
maps `alice` to `pw2`, not to `pw1` any more. -/
theorem registerUser_overwrite_counterexample :
    tableGet ({ emptyState with users := some [("alice", "pw1")] } : State).users "alice"
      = some "pw1" ∧
    registerUser "alice" "pw2" { emptyState with users := some [("alice", "pw1")] }
      = .returned ()
        { emptyState with
          users := some [("alice", "pw2")],
          files := [("users.json", .credentials (some [("alice", "pw2")])),
                    ("chat.json", .history (some []))] } ∧
    ¬ (tableGet (registerUser "alice" "pw2"
        { emptyState with users := some [("alice", "pw1")] }).state.users "alice"
          = some "pw1") := by
  decide

/-- C10 (amended): for every credential store that already maps `u` to a password (and every
other store that is not the nil map), `registerUser(u, p)` with a non-empty username and password,
called with the mutex free, returns with the store mapping `u` to `p`: the record is created or
its password replaced, and every other username's record is unchanged.  With an empty username
or an empty password `registerUser` returns, on every store, with the store and the files
unchanged. -/
theorem registerUser_sets_record (s : State) (u p : String) :
    (∀ table, s.mutex = false → s.users = some table → u ≠ "" → p ≠ "" →
      ∃ s', registerUser u p s = .returned () s' ∧ tableGet s'.users u = some p ∧
        (∀ v, v ≠ u → tableGet s'.users v = mapGet table v) ∧ s'.mutex = false) ∧
    ((u = "" ∨ p = "") →
      ∃ s', registerUser u p s = .returned () s' ∧ s'.users = s.users ∧ s'.files = s.files) := by
  constructor
  · intro table hfree htable hu hp
    refine ⟨_, registerUser_free s u p table hfree htable hu hp, ?_, ?_, hfree⟩
    · exact mapGet_mapSet_same _ _ _
    · intro v hv
      exact mapGet_mapSet_other _ _ _ _ hv
  · intro h
    refine ⟨fmtPrintln "Username and password cannot be empty" s, ?_, rfl, rfl⟩
    simp [registerUser, h]

theorem registerUser_sets_record_witness :
    ({ emptyState with users := some [("alice", "pw1")] } : State).mutex = false ∧
    tableGet (some [("alice", "pw1")]) "alice" = some "pw1" ∧
    (∃ s', registerUser "alice" "pw2" { emptyState with users := some [("alice", "pw1")] }
        = .returned () s' ∧ tableGet s'.users "alice" = some "pw2" ∧
      (∀ v, v ≠ "alice" → tableGet s'.users v = mapGet [("alice", "pw1")] v) ∧
      s'.mutex = false) ∧
    (∃ s', registerUser "" "pw2" { emptyState with users := some [("alice", "pw1")] }
        = .returned () s' ∧ s'.users = some [("alice", "pw1")] ∧ s'.files = []) :=
  ⟨rfl, by decide,
    (registerUser_sets_record { emptyState with users := some [("alice", "pw1")] }
      "alice" "pw2").1 [("alice", "pw1")] rfl rfl (by decide) (by decide),
    (registerUser_sets_record { emptyState with users := some [("alice", "pw1")] }
      "" "pw2").2 (Or.inl rfl)⟩

end ChatApp
